import Mathlib

/-!
Verification development for the LDTP remote keyword adapter
(`src/LDTPLibrary/keywords/keywords.py`, class `LDTPDynamicKeywords`).

The Python code is shallowly embedded: Python 2 values that cross the
marshalling boundary become the inductive type `PyVal`; byte strings
(`str`) and unicode strings are both carried as `List Nat` of code
points, distinguished by a `Bool` flag (`true` = byte string).  The
process-wide standard stream state mutated by `_intercept_std_streams` /
`_restore_std_streams` becomes the explicit record `SysState`.
Exceptions become data (`ExcInfo`), and a propagating exception is an
`Except.error`.  Environment facts that the code reads from the
interpreter (`sys.platform == 'cli'`, the default `repr` of objects
without a printable conversion) are parameters collected in `Env`.
-/

/-- Code points of a Lean string literal, used to write concrete Python
string values. -/
def strBytes (s : String) : List Nat :=
  s.data.map Char.toNat

/-- Digit-accumulator loop for the decimal rendering of a natural number
(the embedding of Python's `str`/`unicode` applied to a non-negative
integer).  The fuel argument makes the recursion structural. -/
def natDecimalGo : Nat → Nat → List Nat → List Nat
  | 0, _, acc => acc
  | fuel + 1, n, acc =>
    if n < 10 then (n + 48) :: acc
    else natDecimalGo fuel (n / 10) ((n % 10 + 48) :: acc)

/-- Decimal digits (as ASCII code points) of a natural number. -/
def natDecimalBytes (n : Nat) : List Nat :=
  natDecimalGo (n + 1) n []

/-- Embedding of Python's `unicode(i)` for an integer `i`. -/
def intDecimalBytes : Int → List Nat
  | Int.ofNat n => natDecimalBytes n
  | Int.negSucc n => 45 :: natDecimalBytes (n + 1)

/-- A Python 2 value as seen by the marshalling layer: `vStr true s` is a
byte string (`str`), `vStr false s` a unicode string, `vBinary` an
`xmlrpclib.Binary` wrapper, `vObj r` an opaque non-iterable object whose
`unicode(...)` conversion yields `r`. -/
inductive PyVal where
  | vNone
  | vBool (b : Bool)
  | vInt (n : Int)
  | vStr (isBytes : Bool) (s : List Nat)
  | vBinary (data : List Nat)
  | vList (items : List PyVal)
  | vMap (entries : List (PyVal × PyVal))
  | vObj (reprText : List Nat)

/-- Interpreter facts the code consults: whether `sys.platform == 'cli'`
(IronPython, which has a binary-safe wire channel), and the default
`repr`/`unicode` text of values that have no printable conversion of
their own (`Binary` instances and containers appearing where the code
stringifies arbitrary objects); that text depends on memory addresses,
so it is a parameter of the embedding. -/
structure Env where
  cli : Bool
  reprFallback : PyVal → List Nat

/-- A character matched by the module-level regex
`BINARY = re.compile('[\x00-\x08\x0B\x0C\x0E-\x1F]')`. -/
def isBinChar (c : Nat) : Bool :=
  decide (c ≤ 8) || c == 11 || c == 12 || (decide (14 ≤ c) && decide (c ≤ 31))

/-- A character matched by `NON_ASCII = re.compile('[\x80-\xff]')`. -/
def isNonAsciiChar (c : Nat) : Bool :=
  decide (128 ≤ c) && decide (c ≤ 255)

/-- Embedding of `_contains_binary(result)`: the `BINARY` regex matches, or the value
is a byte string on a platform other than `'cli'` and the `NON_ASCII`
regex matches. -/
def contains_binary (env : Env) (isBytes : Bool) (s : List Nat) : Bool :=
  s.any isBinChar || (isBytes && !env.cli && s.any isNonAsciiChar)

/-- Embedding of `_handle_binary_result(result)`: pass the string through unchanged
unless it contains binary content, in which case wrap `str(result)` in
an `xmlrpclib.Binary`; `str` on a unicode string with a code point ≥ 128
raises `UnicodeError`, which the code turns into
`ValueError("Cannot represent %r as binary.")` — the `Except.error`
carries the offending string. -/
def handle_binary_result (env : Env) (isBytes : Bool) (s : List Nat) :
    Except (Bool × List Nat) PyVal :=
  if !(contains_binary env isBytes s) then Except.ok (PyVal.vStr isBytes s)
  else if isBytes then Except.ok (PyVal.vBinary s)
  else if s.all (fun c => decide (c < 128)) then Except.ok (PyVal.vBinary s)
  else Except.error (isBytes, s)

/-- The `item = unicode(item)` conversion inside `_str` for a non-`None`
value: strings pass through with their own kind, other values are
converted to unicode text. -/
def strConv (env : Env) : PyVal → Bool × List Nat
  | PyVal.vStr b s => (b, s)
  | PyVal.vInt n => (false, intDecimalBytes n)
  | PyVal.vBool b => (false, strBytes (if b then "True" else "False"))
  | PyVal.vObj r => (false, r)
  | PyVal.vNone => (true, [])
  | v => (false, env.reprFallback v)

/-- Embedding of `_str(item, handle_binary)`: `None` becomes the empty byte string;
otherwise the value is converted to a string and, when `handle_binary`
is set, passed through `_handle_binary_result`. -/
def str_ (env : Env) (item : PyVal) (handleBinary : Bool) :
    Except (Bool × List Nat) PyVal :=
  match item with
  | PyVal.vNone => Except.ok (PyVal.vStr true [])
  | item =>
    let bs := strConv env item
    if handleBinary then handle_binary_result env bs.1 bs.2
    else Except.ok (PyVal.vStr bs.1 bs.2)

/-- Embedding of `_handle_binary_arg(arg)`: unwrap an inbound `xmlrpclib.Binary` to
its raw byte-string payload, pass every other value through. -/
def handle_binary_arg : PyVal → PyVal
  | PyVal.vBinary d => PyVal.vStr true d
  | v => v

/-- Embedding of `_handle_binary_args(args, kwargs)`: apply `_handle_binary_arg` to
every positional argument and every named-argument value. -/
def handle_binary_args (args : List PyVal) (kwargs : List (String × PyVal)) :
    List PyVal × List (String × PyVal) :=
  (args.map handle_binary_arg,
   kwargs.map (fun kv => (kv.1, handle_binary_arg kv.2)))

mutual

/-- Embedding of `_handle_return_value(ret)`: strings go through the binary-safety
pass; numbers and booleans pass unchanged; mappings are rebuilt with
`_str`-converted keys and recursively marshalled values; other iterables
are marshalled elementwise into a list; values that cannot be iterated
(`None`, `Binary` instances, opaque objects) fall through the
`TypeError` branch to `_str(ret)`. -/
def handle_return_value (env : Env) : PyVal → Except (Bool × List Nat) PyVal
  | PyVal.vStr b s => handle_binary_result env b s
  | PyVal.vInt n => Except.ok (PyVal.vInt n)
  | PyVal.vBool b => Except.ok (PyVal.vBool b)
  | PyVal.vMap es => (hrvEntries env es).map PyVal.vMap
  | PyVal.vList xs => (hrvList env xs).map PyVal.vList
  | PyVal.vNone => str_ env PyVal.vNone true
  | PyVal.vBinary d => str_ env (PyVal.vBinary d) true
  | PyVal.vObj r => str_ env (PyVal.vObj r) true

/-- The dict comprehension inside `_handle_return_value`: each entry's
key goes through `_str` and each value is marshalled recursively; the
first raised exception propagates. -/
def hrvEntries (env : Env) :
    List (PyVal × PyVal) → Except (Bool × List Nat) (List (PyVal × PyVal))
  | [] => Except.ok []
  | (k0, v0) :: rest => do
    let k ← str_ env k0 true
    let v ← handle_return_value env v0
    let tail ← hrvEntries env rest
    Except.ok ((k, v) :: tail)

/-- The list comprehension inside `_handle_return_value`: marshal each
item recursively. -/
def hrvList (env : Env) : List PyVal → Except (Bool × List Nat) (List PyVal)
  | [] => Except.ok []
  | x :: rest => do
    let v ← handle_return_value env x
    let tail ← hrvList env rest
    Except.ok (v :: tail)

end

/-- The process-wide stream state mutated by the capture code: whether
`sys.stdout`/`sys.stderr` currently are the temporary `StringIO` sinks
(rather than the original `sys.__stdout__`/`sys.__stderr__`), and the
text accumulated in those sinks. -/
structure SysState where
  stdoutIsCapture : Bool
  stderrIsCapture : Bool
  captureOut : List Nat
  captureErr : List Nat

/-- Embedding of `_intercept_std_streams()`: install fresh empty sinks as both
standard streams. -/
def intercept_std_streams : SysState :=
  ⟨true, true, [], []⟩

/-- The tuple of recognized level markers tested by
`stderr.startswith(...)` in `_restore_std_streams`. -/
def levelMarkers : List (List Nat) :=
  [strBytes "*TRACE*", strBytes "*DEBUG*", strBytes "*INFO*",
   strBytes "*HTML*", strBytes "*WARN*"]

/-- The test `stderr.startswith(('*TRACE*', '*DEBUG*', '*INFO*', '*HTML*', '*WARN*'))`. -/
def startsWithLevelMarker (s : List Nat) : Bool :=
  levelMarkers.any (fun m => m.isPrefixOf s)

/-- Embedding of `_restore_std_streams()`: read both sink buffers, put the original
process streams back (and close the sinks), then combine the captured
text — when both buffers are non-empty, stderr gets an `*INFO*` marker
unless it already starts with a recognized marker and stdout gets a
trailing newline unless it already ends with one — and pass the
concatenation through `_handle_binary_result`. -/
def restore_std_streams (env : Env) (st : SysState) :
    Except (Bool × List Nat) PyVal × SysState :=
  let stdout := st.captureOut
  let stderr := st.captureErr
  let p : List Nat × List Nat :=
    if !stdout.isEmpty && !stderr.isEmpty then
      let stderr2 :=
        if startsWithLevelMarker stderr then stderr
        else strBytes "*INFO* " ++ stderr
      let stdout2 :=
        if stdout.getLast? == some 10 then stdout else stdout ++ [10]
      (stdout2, stderr2)
    else (stdout, stderr)
  (handle_binary_result env true (p.1 ++ p.2), ⟨false, false, [], []⟩)

/-- A raised Python exception, as the classifier observes it:
`typeName` is `exc_type.__name__`; `isRuntime` says whether the instance
is caught by `except RuntimeError`; `isFatalType` / `isGenericType` are
the exact-type membership tests `exc_type in self._fatal_exceptions` /
`exc_type in self._generic_exceptions`; `text` is `unicode(exc_value)`
(with `unicodeFails` set when that conversion raises `UnicodeError`, in
which case `args` feeds the fallback join); the three `robot*` flags are
the truthiness of the `ROBOT_CONTINUE_ON_FAILURE`,
`ROBOT_EXIT_ON_FAILURE` and `ROBOT_SUPPRESS_NAME` marker attributes;
`tb` is the list of formatted traceback entries of `exc_tb`. -/
structure ExcInfo where
  typeName : List Nat
  isRuntime : Bool
  isFatalType : Bool
  isGenericType : Bool
  unicodeFails : Bool
  text : List Nat
  args : List PyVal
  robotContinue : Bool
  robotExit : Bool
  robotSuppress : Bool
  tb : List (List Nat)

/-- The join `' '.join(...)` over already-converted parts. -/
def joinWithSpace (parts : List (List Nat)) : List Nat :=
  List.intercalate [32] parts

/-- Embedding of `_get_message_from_exception(value)`: `unicode(value)`, falling back
to the space-join of the `_str`-converted `value.args` when that raises
`UnicodeError`; the result goes through `_handle_binary_result` (whose
`ValueError` propagates as the `Except.error`). -/
def get_message_from_exception (env : Env) (e : ExcInfo) :
    Except (Bool × List Nat) PyVal :=
  let bm : Bool × List Nat :=
    if e.unicodeFails then
      let parts := e.args.map (strConv env)
      (parts.all (fun p => p.1), joinWithSpace (parts.map (fun p => p.2)))
    else (false, e.text)
  handle_binary_result env bm.1 bm.2

/-- How `_get_error_message` can fail to return a message: the fatal
branch restores the streams and re-raises the handled exception, or the
`ValueError` of `_handle_binary_result` escapes. -/
inductive GemEscape where
  | fatalReraise
  | binaryError (isBytes : Bool) (s : List Nat)

/-- Truthiness of the message value in `if not message:` — a string is
falsy exactly when empty; an `xmlrpclib.Binary` instance defines neither
`__len__` nor `__nonzero__`, so it is always truthy. -/
def pyFalsy : PyVal → Bool
  | PyVal.vStr _ s => s.isEmpty
  | PyVal.vNone => true
  | PyVal.vBool b => !b
  | PyVal.vInt n => n == 0
  | PyVal.vList xs => xs.isEmpty
  | PyVal.vMap es => es.isEmpty
  | _ => false

/-- The formatting `'%s: %s' % (name, message)`: `name` is a byte string; the result has
the message's string kind, and a `Binary` message is rendered through
its default instance `repr`. -/
def formatNameMsg (env : Env) (name : List Nat) : PyVal → PyVal
  | PyVal.vStr b s => PyVal.vStr b (name ++ strBytes ": " ++ s)
  | m => PyVal.vStr true (name ++ strBytes ": " ++ (strConv env m).2)

/-- Embedding of `_get_error_message(exc_type, exc_value)`: for an exact fatal type,
restore the streams and re-raise; otherwise build the message text —
the exception's own text if non-empty, else its type name, formatted as
`'<Kind>: <text>'` unless the exact type is one of the generic
exceptions or the `ROBOT_SUPPRESS_NAME` marker is set. -/
def get_error_message (env : Env) (e : ExcInfo) (st : SysState) :
    Except GemEscape PyVal × SysState :=
  if e.isFatalType then
    (Except.error GemEscape.fatalReraise, (restore_std_streams env st).2)
  else
    match get_message_from_exception env e with
    | Except.error bs => (Except.error (GemEscape.binaryError bs.1 bs.2), st)
    | Except.ok message =>
      if pyFalsy message then (Except.ok (PyVal.vStr true e.typeName), st)
      else if e.isGenericType || e.robotSuppress then (Except.ok message, st)
      else (Except.ok (formatNameMsg env e.typeName message), st)

/-- Embedding of `_get_error_traceback(exc_tb)`: drop the first extracted entry (the
dispatcher's own frame) and prepend the standard header to the
concatenation of the remaining formatted entries. -/
def get_error_traceback (tb : List (List Nat)) : List Nat :=
  strBytes "Traceback (most recent call last):\n" ++ (tb.drop 1).flatten

/-- One hexadecimal digit, lowercase, as Python's `repr` escapes use. -/
def hexDigitChar (n : Nat) : Nat :=
  if n < 10 then n + 48 else n + 87

/-- A `\xhh` escape. -/
def hexEscapeByte (c : Nat) : List Nat :=
  [92, 120, hexDigitChar (c / 16 % 16), hexDigitChar (c % 16)]

/-- One character of Python 2's `repr` of a string, given the chosen
quote character. -/
def reprCharBytes (quote : Nat) (c : Nat) : List Nat :=
  if c == 92 then [92, 92]
  else if c == quote then [92, quote]
  else if c == 9 then [92, 116]
  else if c == 10 then [92, 110]
  else if c == 13 then [92, 114]
  else if decide (c < 32) || c == 127 then hexEscapeByte c
  else if decide (c < 128) then [c]
  else if decide (c < 256) then hexEscapeByte c
  else [92, 117, hexDigitChar (c / 4096 % 16), hexDigitChar (c / 256 % 16),
        hexDigitChar (c / 16 % 16), hexDigitChar (c % 16)]

/-- Python 2 `repr` of a string (the `%r` in
`"Cannot represent %r as binary."`): quoted with `'` unless the text
contains `'` but no `"`, each character escaped as needed, with a `u`
prefix for unicode strings. -/
def pyRepr (isBytes : Bool) (s : List Nat) : List Nat :=
  let q : Nat := if s.contains 39 && !(s.contains 34) then 34 else 39
  (if isBytes then [] else [117]) ++ [q] ++ (s.map (reprCharBytes q)).flatten ++ [q]

/-- The `ValueError` raised by `_handle_binary_result`, as the
`ExcInfo` that `_get_error_message` then receives on the return-value
marshalling path: exact type `ValueError` is neither fatal nor generic,
carries no Robot marker attributes, and its text is
`"Cannot represent %r as binary."`. -/
def cannotRepresentExc (isBytes : Bool) (s : List Nat) : ExcInfo :=
  { typeName := strBytes "ValueError"
    isRuntime := false
    isFatalType := false
    isGenericType := false
    unicodeFails := false
    text := strBytes "Cannot represent " ++ pyRepr isBytes s ++ strBytes " as binary."
    args := []
    robotContinue := false
    robotExit := false
    robotSuppress := false
    tb := [] }

/-- What an invoked keyword does: text written to `sys.stdout` and
`sys.stderr` while it runs, and how it finishes. -/
inductive KwOutcome where
  | ret (v : PyVal)
  | raises (e : ExcInfo)

/-- The observable effect of one keyword invocation. -/
structure KwEffect where
  out : List Nat
  err : List Nat
  outcome : KwOutcome

/-- A function/method attribute of the collaborator: its
`inspect.getargspec` data (`argNames` includes the implicit receiver for
bound methods, `defaults` holds the display form of each default value)
and its behaviour when called. -/
structure Keyword where
  argNames : List String
  varargs : Option String
  kwargsName : Option String
  defaults : List String
  isMethod : Bool
  run : List PyVal → List (String × PyVal) → KwEffect

/-- An attribute of the `ldtp` collaborator: either a function/method or
some other (non-callable) value. -/
inductive CollabAttr where
  | func (k : Keyword)
  | other

/-- The collaborator's introspectable surface: its `dir(...)` listing as
(name, attribute) pairs. -/
def Collab : Type := List (String × CollabAttr)

/-- Embedding of `_is_function_or_method(item)`: true exactly for function/method
attributes. -/
def is_function_or_method : CollabAttr → Bool
  | CollabAttr.func _ => true
  | CollabAttr.other => false

/-- Embedding of `get_keyword_names()`: every name in `dir(self._ldtp)` whose first
character is not `'_'` (attribute names are non-empty identifiers). -/
def get_keyword_names (lib : Collab) : List String :=
  (lib.map Prod.fst).filter (fun n => !(n.data.head? == some '_'))

/-- Embedding of `_get_keyword(name)`: `getattr(self._ldtp, name, None)`, then `None`
unless the attribute is a function or method. -/
def get_keyword (lib : Collab) (name : String) : Option Keyword :=
  match lib.find? (fun p => p.1 == name) with
  | some p =>
    match p.2 with
    | CollabAttr.func k => some k
    | CollabAttr.other => none
  | none => none

/-- Embedding of `_arguments_from_kw(kw)`: drop the implicit receiver for bound
methods; split off the last `len(defaults)` names and render them as
`name=default`; append the `*varargs` and `**kwargs` markers when
present. -/
def arguments_from_kw (kw : Keyword) : List String :=
  let args := if kw.isMethod then kw.argNames.drop 1 else kw.argNames
  let args :=
    if kw.defaults.isEmpty then args
    else
      args.take (args.length - kw.defaults.length) ++
        List.zipWith (fun n d => n ++ "=" ++ d)
          (args.drop (args.length - kw.defaults.length)) kw.defaults
  let args :=
    match kw.varargs with
    | some v => args ++ ["*" ++ v]
    | none => args
  match kw.kwargsName with
  | some k2 => args ++ ["**" ++ k2]
  | none => args

/-- Embedding of `get_keyword_arguments(name)`: empty for an unresolved name,
otherwise `_arguments_from_kw` on the resolved keyword. -/
def get_keyword_arguments (lib : Collab) (name : String) : List String :=
  match get_keyword lib name with
  | none => []
  | some kw => arguments_from_kw kw

/-- The result dictionary assembled by `run_keyword`; each optional
field is present exactly when `_add_to_result` put it there. -/
structure Envelope where
  status : List Nat
  ret : Option PyVal
  error : Option PyVal
  traceback : Option PyVal
  continuable : Option PyVal
  fatal : Option PyVal
  output : Option PyVal

/-- Python 2 equality of a value with the default `''` used by
`_add_to_result`: empty strings of either kind compare equal to `''`,
and `xmlrpclib.Binary.__cmp__` compares its payload with the other
operand, so `Binary('')` is also equal; everything else (including the
booleans `False`/`True`, numbers, `None` and containers) is unequal to
`''` in Python 2. -/
def pyEqEmptyStr : PyVal → Bool
  | PyVal.vStr _ s => s.isEmpty
  | PyVal.vBinary d => d.isEmpty
  | _ => false

/-- Embedding of `_add_to_result(result, key, value)` with the (always implicit at
the call sites) default `''`: store the value only when it differs from
the empty string. -/
def add_to_result (v : PyVal) : Option PyVal :=
  if pyEqEmptyStr v then none else some v

/-- The initial `result = {'status': 'FAIL'}`. -/
def emptyFailEnvelope : Envelope :=
  ⟨strBytes "FAIL", none, none, none, none, none, none⟩

/-- An exception propagating out of `run_keyword` uncaught: an exception
raised by the keyword that `except RuntimeError` does not catch (or that
the fatal branch of `_get_error_message` re-raises); the `ValueError` of
`_handle_binary_result` escaping from inside an except handler; or the
`TypeError` from calling `None` when the name did not resolve to a
function or method. -/
inductive Raised where
  | user (e : ExcInfo)
  | binaryValueError (isBytes : Bool) (s : List Nat)
  | noneNotCallable

/-- The shared tail of `run_keyword` (line `self._add_to_result(result,
'output', self._restore_std_streams())` and the final `return result`):
restore the streams, attach the captured text, and return the envelope;
a `ValueError` raised by the binary pass inside `_restore_std_streams`
would propagate (it cannot for byte-string buffers, but the branch is
kept). -/
def finishEnvelope (env : Env) (r : Envelope) (st : SysState) :
    Except Raised Envelope × SysState :=
  match restore_std_streams env st with
  | (Except.ok outv, st2) => (Except.ok { r with output := add_to_result outv }, st2)
  | (Except.error bs, st2) => (Except.error (Raised.binaryValueError bs.1 bs.2), st2)

/-- Embedding of `run_keyword(name, args, kwargs=None)`: unwrap binary arguments
(with `kwargs or {}`), start the result envelope at FAIL, intercept the
streams, resolve and invoke the keyword; a raised `RuntimeError` is
classified into error/traceback/continuable/fatal fields, any other
raised exception propagates; on normal return the value is marshalled,
a marshalling failure being classified into a bare error field;
finally the streams are restored and the captured output attached. -/
def run_keyword (env : Env) (lib : Collab) (name : String)
    (args : List PyVal) (okwargs : Option (List (String × PyVal))) :
    Except Raised Envelope × SysState :=
  let ak := handle_binary_args args (okwargs.getD [])
  let st0 := intercept_std_streams
  match get_keyword lib name with
  | none => (Except.error Raised.noneNotCallable, st0)
  | some kw =>
    let eff := kw.run ak.1 ak.2
    let st1 : SysState := ⟨true, true, eff.out, eff.err⟩
    match eff.outcome with
    | KwOutcome.ret v =>
      match handle_return_value env v with
      | Except.ok rv =>
        finishEnvelope env
          { emptyFailEnvelope with status := strBytes "PASS", ret := add_to_result rv } st1
      | Except.error bs =>
        match get_error_message env (cannotRepresentExc bs.1 bs.2) st1 with
        | (Except.ok msg, st2) =>
          finishEnvelope env { emptyFailEnvelope with error := add_to_result msg } st2
        | (Except.error GemEscape.fatalReraise, st2) =>
          (Except.error (Raised.binaryValueError bs.1 bs.2), st2)
        | (Except.error (GemEscape.binaryError b s), st2) =>
          (Except.error (Raised.binaryValueError b s), st2)
    | KwOutcome.raises e =>
      if e.isRuntime then
        match get_error_message env e st1 with
        | (Except.ok msg, st2) =>
          finishEnvelope env
            { emptyFailEnvelope with
                error := add_to_result msg
                traceback := add_to_result (PyVal.vStr true (get_error_traceback e.tb))
                continuable := add_to_result (PyVal.vBool e.robotContinue)
                fatal := add_to_result (PyVal.vBool e.robotExit) } st2
        | (Except.error GemEscape.fatalReraise, st2) =>
          (Except.error (Raised.user e), st2)
        | (Except.error (GemEscape.binaryError b s), st2) =>
          (Except.error (Raised.binaryValueError b s), st2)
      else (Except.error (Raised.user e), st1)

/-- A concrete environment for closed evaluations: a CPython (non-cli)
platform; the address-dependent fallback `repr` is never consulted on
the concrete inputs below, so any function will do. -/
def envStd : Env := ⟨false, fun _ => []⟩

/-- A keyword fixture with an empty argument specification. -/
def mkKw (r : List PyVal → List (String × PyVal) → KwEffect) : Keyword :=
  ⟨[], none, none, [], false, r⟩

/-- A keyword that writes `"hello"` (no trailing newline) to stdout and
returns `None`. -/
def kwHello : Keyword :=
  mkKw (fun _ _ => ⟨strBytes "hello", [], KwOutcome.ret PyVal.vNone⟩)

/-- A keyword that writes `"hello"` to stdout and `"x"` to stderr and
returns `None`. -/
def kwHelloErr : Keyword :=
  mkKw (fun _ _ => ⟨strBytes "hello", strBytes "x", KwOutcome.ret PyVal.vNone⟩)

/-- A collaborator exposing the two stream-writing keywords. -/
def collabHello : Collab :=
  [("hello_print", CollabAttr.func kwHello),
   ("hello_both", CollabAttr.func kwHelloErr)]

/-- C3 counterexample: `get_keyword_names` does not filter by
callability — a collaborator with a public non-callable attribute
`data` yields `["data"]`, although `data` is not a function or method,
so the returned names are not exactly the public function/method-like
attributes. -/
theorem c3_noncallable_name_returned :
    get_keyword_names [("data", CollabAttr.other)] = ["data"] ∧
      is_function_or_method CollabAttr.other = false :=
  ⟨rfl, rfl⟩

/-- C3 (amended): `get_keyword_names` returns exactly the attribute
names whose first character is not the internal marker `'_'`, with no
filtering by callability — the names of public non-callable attributes
are returned as well. -/
theorem c3_amended_names_exact (lib : Collab) (n : String) :
    n ∈ get_keyword_names lib ↔
      n ∈ lib.map Prod.fst ∧ ¬(n.data.head? = some '_') := by
  simp [get_keyword_names, List.mem_filter]

/-- C4 counterexample: a keyword that writes `"hello"` (no trailing
newline) to stdout and returns `None` yields `status=PASS` with
`output="hello"` — the trailing newline is not added, because the
newline adjustment in `_restore_std_streams` runs only when both the
stdout and the stderr buffers are non-empty. -/
theorem c4_no_trailing_newline :
    (run_keyword envStd collabHello "hello_print" [] none).1 =
      Except.ok ⟨strBytes "PASS", none, none, none, none, none,
        some (PyVal.vStr true (strBytes "hello"))⟩ ∧
      some (PyVal.vStr true (strBytes "hello")) ≠
        some (PyVal.vStr true (strBytes "hello\n")) := by
  constructor
  · rfl
  · simp [strBytes]

/-- C4 (amended): a keyword that writes `"hello"` (no trailing newline)
to standard output and returns normally yields an envelope with
`status=PASS` and `output="hello"`; the newline is appended (and
stderr tagged `*INFO*`) only when the stderr capture is also non-empty,
as in the second conjunct where the same write is paired with `"x"` on
stderr and the output becomes `"hello\n*INFO* x"`. -/
theorem c4_amended_output_newline_policy :
    (run_keyword envStd collabHello "hello_print" [] none).1 =
      Except.ok ⟨strBytes "PASS", none, none, none, none, none,
        some (PyVal.vStr true (strBytes "hello"))⟩ ∧
    (run_keyword envStd collabHello "hello_both" [] none).1 =
      Except.ok ⟨strBytes "PASS", none, none, none, none, none,
        some (PyVal.vStr true (strBytes "hello\n*INFO* x"))⟩ :=
  ⟨rfl, rfl⟩

/-- C10: calling `run_keyword` with the named-arguments parameter
omitted (its Python default `None`, embedded as `none`) produces the
same envelope and stream state as calling it with an empty map of named
arguments, for every collaborator, keyword name and positional argument
list. -/
theorem c10_kwargs_default (env : Env) (lib : Collab) (name : String)
    (args : List PyVal) :
    run_keyword env lib name args none = run_keyword env lib name args (some []) :=
  rfl

/-- On a byte string, `_handle_binary_result` never raises: `str` on a
`str` is the identity, so the result is the string itself or its
`Binary` wrapping. -/
lemma handle_binary_result_bytes_ok (env : Env) (s : List Nat) :
    handle_binary_result env true s =
      Except.ok (if contains_binary env true s then PyVal.vBinary s
                 else PyVal.vStr true s) := by
  unfold handle_binary_result
  by_cases h : contains_binary env true s <;> simp [h]

/-- Lemma: `_restore_std_streams` on byte-string buffers always returns a value
and leaves the original streams installed with the sinks closed. -/
lemma restore_std_streams_ok (env : Env) (st : SysState) :
    ∃ v, restore_std_streams env st = (Except.ok v, ⟨false, false, [], []⟩) := by
  simp only [restore_std_streams, handle_binary_result_bytes_ok]
  exact ⟨_, rfl⟩

/-- The shared envelope tail always succeeds, only filling the `output`
field and restoring the streams. -/
lemma finishEnvelope_ok (env : Env) (r : Envelope) (st : SysState) :
    ∃ outv, finishEnvelope env r st =
      (Except.ok { r with output := outv }, ⟨false, false, [], []⟩) := by
  obtain ⟨v, hv⟩ := restore_std_streams_ok env st
  exact ⟨add_to_result v, by unfold finishEnvelope; rw [hv]⟩

/-- A `RuntimeError` carrying the continue-on-failure marker: exact type
`RuntimeError` is generic, message text `"boom"`. -/
def rcExc : ExcInfo :=
  { typeName := strBytes "RuntimeError", isRuntime := true, isFatalType := false,
    isGenericType := true, unicodeFails := false, text := strBytes "boom", args := [],
    robotContinue := true, robotExit := false, robotSuppress := false, tb := [] }

/-- A keyword that raises `rcExc` without writing to the streams. -/
def kwRC : Keyword := mkKw (fun _ _ => ⟨[], [], KwOutcome.raises rcExc⟩)

/-- A collaborator exposing `kwRC` as `flaky`. -/
def collabRC : Collab := [("flaky", CollabAttr.func kwRC)]

/-- C5 counterexample: a keyword raising a continue-on-failure
`RuntimeError` yields an envelope in which `fatal` is PRESENT with value
`False` (and `continuable` present with `True`): `_add_to_result` is
called without a `default=False` argument, so the booleans are compared
against the default `''`, which neither `False` nor `True` equals in
Python 2 — the claim that `continuable`/`fatal` are omitted when false
does not hold. -/
theorem c5_fatal_false_present :
    (run_keyword envStd collabRC "flaky" [] none).1 =
      Except.ok ⟨strBytes "FAIL", none, some (PyVal.vStr false (strBytes "boom")),
        some (PyVal.vStr true (strBytes "Traceback (most recent call last):\n")),
        some (PyVal.vBool true), some (PyVal.vBool false), none⟩ ∧
      (some (PyVal.vBool false) : Option PyVal) ≠ none :=
  ⟨rfl, by simp⟩

/-- C5 (amended): in every classified-failure envelope the `continuable`
and `fatal` fields are always present, carrying the exception's
continue-on-failure and exit-on-failure marker values — the omission
check compares them against the empty-string default, which no boolean
equals in Python 2; in particular a keyword raising a condition with the
continue-on-failure marker yields `status=FAIL`, `continuable=true` and
`fatal` present with value `false`. -/
theorem c5_amended_flags_always_present (env : Env) (lib : Collab) (name : String)
    (args : List PyVal) (okw : Option (List (String × PyVal)))
    (kw : Keyword) (out err : List Nat) (e : ExcInfo) (msg : PyVal)
    (hres : get_keyword lib name = some kw)
    (hrun : kw.run (handle_binary_args args (okw.getD [])).1
        (handle_binary_args args (okw.getD [])).2 = ⟨out, err, KwOutcome.raises e⟩)
    (hrt : e.isRuntime = true)
    (hnf : e.isFatalType = false)
    (hmsg : get_message_from_exception env e = Except.ok msg) :
    ∃ envp, (run_keyword env lib name args okw).1 = Except.ok envp ∧
      envp.status = strBytes "FAIL" ∧
      envp.continuable = some (PyVal.vBool e.robotContinue) ∧
      envp.fatal = some (PyVal.vBool e.robotExit) := by
  have key : ∀ (m : PyVal) (st : SysState),
      ∃ envp, (finishEnvelope env
          { emptyFailEnvelope with
              error := add_to_result m
              traceback := add_to_result (PyVal.vStr true (get_error_traceback e.tb))
              continuable := add_to_result (PyVal.vBool e.robotContinue)
              fatal := add_to_result (PyVal.vBool e.robotExit) } st).1 = Except.ok envp ∧
        envp.status = strBytes "FAIL" ∧
        envp.continuable = some (PyVal.vBool e.robotContinue) ∧
        envp.fatal = some (PyVal.vBool e.robotExit) := by
    intro m st
    obtain ⟨outv, hfe⟩ := finishEnvelope_ok env _ st
    rw [hfe]
    exact ⟨_, rfl, rfl, rfl, rfl⟩
  unfold run_keyword
  rw [hres]
  simp only [hrun, get_error_message, hnf, hrt, if_true, Bool.false_eq_true, if_false]
  rw [hmsg]
  cases hf : pyFalsy msg <;> cases hg : (e.isGenericType || e.robotSuppress) <;>
    simp only [hf, hg, Bool.false_eq_true, Bool.true_eq_false, if_true, if_false,
      ite_true, ite_false] <;>
    exact key _ _

/-- C5 witness: the amended statement applied to the concrete
continue-on-failure `RuntimeError` fixture. -/
theorem c5_amended_flags_always_present_witness :
    ∃ envp, (run_keyword envStd collabRC "flaky" [] none).1 = Except.ok envp ∧
      envp.status = strBytes "FAIL" ∧
      envp.continuable = some (PyVal.vBool rcExc.robotContinue) ∧
      envp.fatal = some (PyVal.vBool rcExc.robotExit) :=
  c5_amended_flags_always_present envStd collabRC "flaky" [] none kwRC [] [] rcExc
    (PyVal.vStr false (strBytes "boom")) rfl rfl rfl rfl rfl

/-- A `SystemExit`: exact fatal type, not a `RuntimeError` instance. -/
def sysExitExc : ExcInfo :=
  { typeName := strBytes "SystemExit", isRuntime := false, isFatalType := true,
    isGenericType := false, unicodeFails := false, text := [], args := [],
    robotContinue := false, robotExit := false, robotSuppress := false, tb := [] }

/-- A keyword that raises `SystemExit`. -/
def kwFatal : Keyword := mkKw (fun _ _ => ⟨[], [], KwOutcome.raises sysExitExc⟩)

/-- A collaborator exposing `kwFatal` as `quit_app`. -/
def collabFatal : Collab := [("quit_app", CollabAttr.func kwFatal)]

/-- C1 counterexample: a keyword raising a fatal/process-exit condition
(`SystemExit`) is not caught by the `except RuntimeError` clause, so the
condition propagates out of `run_keyword` while `sys.stdout` and
`sys.stderr` are still the capture sinks — the original streams are NOT
restored on this exit path, and the restore-and-reraise branch of
`_get_error_message` is never reached. -/
theorem c1_fatal_leaves_streams_captured :
    run_keyword envStd collabFatal "quit_app" [] none =
      (Except.error (Raised.user sysExitExc), ⟨true, true, [], []⟩) ∧
      sysExitExc.isFatalType = true ∧
      (⟨true, true, [], []⟩ : SysState).stdoutIsCapture = true :=
  ⟨rfl, rfl, rfl⟩

/-- C1 (amended): capture begins before the keyword is invoked, and the
original streams are restored on every path that returns an envelope
(normal return and classified `RuntimeError` failure); but an exception
that is not a `RuntimeError` instance — fatal/process-exit conditions
included — propagates out of `run_keyword` with the capture streams
still installed. -/
theorem c1_amended_restore_policy :
    (∀ (env : Env) (lib : Collab) (name : String) (args : List PyVal)
        (okw : Option (List (String × PyVal))) (envp : Envelope) (st : SysState),
        run_keyword env lib name args okw = (Except.ok envp, st) →
        st.stdoutIsCapture = false ∧ st.stderrIsCapture = false) ∧
    (∀ (env : Env) (lib : Collab) (name : String) (args : List PyVal)
        (okw : Option (List (String × PyVal))) (kw : Keyword) (out err : List Nat)
        (e : ExcInfo),
        get_keyword lib name = some kw →
        kw.run (handle_binary_args args (okw.getD [])).1
            (handle_binary_args args (okw.getD [])).2 = ⟨out, err, KwOutcome.raises e⟩ →
        e.isRuntime = false →
        run_keyword env lib name args okw =
          (Except.error (Raised.user e), ⟨true, true, out, err⟩)) := by
  constructor
  · intro env lib name args okw envp st h
    have key : ∀ (r : Envelope) (st0 : SysState),
        finishEnvelope env r st0 = (Except.ok envp, st) →
        st.stdoutIsCapture = false ∧ st.stderrIsCapture = false := by
      intro r st0 hfe
      obtain ⟨outv, hfe2⟩ := finishEnvelope_ok env r st0
      rw [hfe2] at hfe
      have hst : (⟨false, false, [], []⟩ : SysState) = st := congrArg Prod.snd hfe
      rw [← hst]
      exact ⟨rfl, rfl⟩
    simp only [run_keyword] at h
    split at h
    · exact absurd (congrArg Prod.fst h) (by simp)
    · split at h
      · split at h
        · exact key _ _ h
        · split at h
          · exact key _ _ h
          · exact absurd (congrArg Prod.fst h) (by simp)
          · exact absurd (congrArg Prod.fst h) (by simp)
      · split at h
        · split at h
          · exact key _ _ h
          · exact absurd (congrArg Prod.fst h) (by simp)
          · exact absurd (congrArg Prod.fst h) (by simp)
        · exact absurd (congrArg Prod.fst h) (by simp)
  · intro env lib name args okw kw out err e hres hrun hrt
    unfold run_keyword
    rw [hres]
    simp only [hrun, hrt, Bool.false_eq_true, if_false]

/-- C1 witness: the restore conclusion at the concrete `hello_print`
invocation, and the propagation conclusion at the concrete `SystemExit`
fixture. -/
theorem c1_amended_restore_policy_witness :
    ((⟨false, false, [], []⟩ : SysState).stdoutIsCapture = false ∧
      (⟨false, false, [], []⟩ : SysState).stderrIsCapture = false) ∧
    run_keyword envStd collabFatal "quit_app" [] none =
      (Except.error (Raised.user sysExitExc), ⟨true, true, [], []⟩) :=
  ⟨c1_amended_restore_policy.1 envStd collabHello "hello_print" [] none
      ⟨strBytes "PASS", none, none, none, none, none,
        some (PyVal.vStr true (strBytes "hello"))⟩ ⟨false, false, [], []⟩ rfl,
    c1_amended_restore_policy.2 envStd collabFatal "quit_app" [] none kwFatal
      [] [] sysExitExc rfl rfl rfl⟩

/-- A `ValueError` raised by a keyword: neither fatal nor a
`RuntimeError` instance, message text `"bad"`. -/
def valueErrExc : ExcInfo :=
  { typeName := strBytes "ValueError", isRuntime := false, isFatalType := false,
    isGenericType := false, unicodeFails := false, text := strBytes "bad", args := [],
    robotContinue := false, robotExit := false, robotSuppress := false, tb := [] }

/-- A keyword that raises `valueErrExc`. -/
def kwVE : Keyword := mkKw (fun _ _ => ⟨[], [], KwOutcome.raises valueErrExc⟩)

/-- A collaborator exposing `kwVE` as `bad_args`. -/
def collabVE : Collab := [("bad_args", CollabAttr.func kwVE)]

/-- C2 counterexample: a keyword raising a `ValueError` — a recoverable,
non-fatal condition — has that condition cross the `run_keyword`
boundary as a raised exception instead of being converted into a FAIL
envelope, because the handler catches only `RuntimeError`; so it is not
true that only fatal/process-exit conditions escape. -/
theorem c2_nonruntime_error_escapes :
    run_keyword envStd collabVE "bad_args" [] none =
      (Except.error (Raised.user valueErrExc), ⟨true, true, [], []⟩) ∧
      valueErrExc.isFatalType = false :=
  ⟨rfl, rfl⟩

/-- C2 (amended): only `RuntimeError` instances raised by the invoked
callable are converted into the result envelope (status FAIL with
message/trace/flags); any other raised condition — fatal or not —
crosses the `run_keyword` boundary as a raised exception. -/
theorem c2_amended_boundary_policy :
    (∀ (env : Env) (lib : Collab) (name : String) (args : List PyVal)
        (okw : Option (List (String × PyVal))) (kw : Keyword) (out err : List Nat)
        (e : ExcInfo),
        get_keyword lib name = some kw →
        kw.run (handle_binary_args args (okw.getD [])).1
            (handle_binary_args args (okw.getD [])).2 = ⟨out, err, KwOutcome.raises e⟩ →
        e.isRuntime = false →
        run_keyword env lib name args okw =
          (Except.error (Raised.user e), ⟨true, true, out, err⟩)) ∧
    (∀ (env : Env) (lib : Collab) (name : String) (args : List PyVal)
        (okw : Option (List (String × PyVal))) (kw : Keyword) (out err : List Nat)
        (e : ExcInfo) (msg : PyVal),
        get_keyword lib name = some kw →
        kw.run (handle_binary_args args (okw.getD [])).1
            (handle_binary_args args (okw.getD [])).2 = ⟨out, err, KwOutcome.raises e⟩ →
        e.isRuntime = true →
        e.isFatalType = false →
        get_message_from_exception env e = Except.ok msg →
        ∃ envp, (run_keyword env lib name args okw).1 = Except.ok envp ∧
          envp.status = strBytes "FAIL") := by
  constructor
  · intro env lib name args okw kw out err e hres hrun hrt
    unfold run_keyword
    rw [hres]
    simp only [hrun, hrt, Bool.false_eq_true, if_false]
  · intro env lib name args okw kw out err e msg hres hrun hrt hnf hmsg
    have key : ∀ (r : Envelope) (st : SysState), r.status = strBytes "FAIL" →
        ∃ envp, (finishEnvelope env r st).1 = Except.ok envp ∧
          envp.status = strBytes "FAIL" := by
      intro r st hr
      obtain ⟨outv, hfe⟩ := finishEnvelope_ok env r st
      rw [hfe]
      exact ⟨_, rfl, hr⟩
    unfold run_keyword
    rw [hres]
    simp only [hrun, get_error_message, hnf, hrt, if_true, Bool.false_eq_true, if_false]
    rw [hmsg]
    cases hf : pyFalsy msg <;> cases hg : (e.isGenericType || e.robotSuppress) <;>
      simp only [hf, hg, Bool.false_eq_true, Bool.true_eq_false, if_true, if_false,
        ite_true, ite_false] <;>
      exact key _ _ rfl

/-- C2 witness: the propagation conclusion at the concrete `ValueError`
fixture, and the envelope conclusion at the concrete continue-on-failure
`RuntimeError` fixture. -/
theorem c2_amended_boundary_policy_witness :
    run_keyword envStd collabVE "bad_args" [] none =
      (Except.error (Raised.user valueErrExc), ⟨true, true, [], []⟩) ∧
    ∃ envp, (run_keyword envStd collabRC "flaky" [] none).1 = Except.ok envp ∧
      envp.status = strBytes "FAIL" :=
  ⟨c2_amended_boundary_policy.1 envStd collabVE "bad_args" [] none kwVE
      [] [] valueErrExc rfl rfl rfl,
    c2_amended_boundary_policy.2 envStd collabRC "flaky" [] none kwRC [] [] rcExc
      (PyVal.vStr false (strBytes "boom")) rfl rfl rfl rfl rfl⟩

/-- C6: `get_keyword_arguments` returns the required parameter names
bare, then the defaulted parameters as `name=default` pairs in
declaration order, then the `*varargs` and `**kwargs` markers when
present, with the implicit receiver dropped for bound methods; an
unresolved name yields the empty list rather than an error. -/
theorem c6_keyword_arguments_spec :
    (∀ (lib : Collab) (name : String) (kw : Keyword) (recv req names : List String),
        get_keyword lib name = some kw →
        kw.argNames = recv ++ req ++ names →
        recv.length = (if kw.isMethod then 1 else 0) →
        names.length = kw.defaults.length →
        get_keyword_arguments lib name =
          req ++ List.zipWith (fun n d => n ++ "=" ++ d) names kw.defaults ++
            (match kw.varargs with | some v => ["*" ++ v] | none => []) ++
            (match kw.kwargsName with | some k2 => ["**" ++ k2] | none => [])) ∧
    (∀ (lib : Collab) (name : String),
        get_keyword lib name = none → get_keyword_arguments lib name = []) := by
  constructor
  · intro lib name kw recv req names hres hargs hrecv hlen
    have hbase : (if kw.isMethod then kw.argNames.drop 1 else kw.argNames) =
        req ++ names := by
      cases hm : kw.isMethod
      · rw [hm] at hrecv
        simp at hrecv
        simp [hargs, hrecv]
      · rw [hm] at hrecv
        simp at hrecv
        obtain ⟨a, ha⟩ := List.length_eq_one.mp hrecv
        simp [hargs, ha]
    simp only [get_keyword_arguments, hres, arguments_from_kw, hbase]
    cases hd : kw.defaults with
    | nil =>
      have hn : names = [] := by
        rw [hd] at hlen
        exact List.eq_nil_of_length_eq_zero hlen
      cases kw.varargs <;> cases kw.kwargsName <;> simp [hn]
    | cons d ds =>
      rw [hd] at hlen
      have hidx : (req ++ names).length - (d :: ds).length = req.length := by
        rw [List.length_append, hlen]
        omega
      simp only [List.isEmpty_cons, Bool.false_eq_true, if_false, hidx,
        List.take_left' rfl, List.drop_left' rfl]
      cases kw.varargs <;> cases kw.kwargsName <;> simp
  · intro lib name h
    unfold get_keyword_arguments
    rw [h]

/-- A bound method `add(self, a, b, c=1, *rest, **extra)` as its
`inspect.getargspec` data. -/
def kwAdd : Keyword :=
  { argNames := ["self", "a", "b", "c"], varargs := some "rest",
    kwargsName := some "extra", defaults := ["1"], isMethod := true,
    run := fun _ _ => ⟨[], [], KwOutcome.ret PyVal.vNone⟩ }

/-- A collaborator with the `add` method and a non-callable public
attribute `ver`. -/
def collabArgs : Collab :=
  [("add", CollabAttr.func kwAdd), ("ver", CollabAttr.other)]

/-- C6 witness: the argument specification of the concrete bound method
(2 required, 1 defaulted, both variadic markers, receiver dropped) and
the empty result for an unresolved name. -/
theorem c6_keyword_arguments_spec_witness :
    get_keyword_arguments collabArgs "add" = ["a", "b", "c=1", "*rest", "**extra"] ∧
    get_keyword_arguments collabArgs "ver" = [] := by
  constructor
  · have h := c6_keyword_arguments_spec.1 collabArgs "add" kwAdd ["self"] ["a", "b"]
      ["c"] rfl rfl rfl rfl
    simpa using h
  · exact c6_keyword_arguments_spec.2 collabArgs "ver" rfl

/-- C7: marshalling a string of printable ASCII returns it unchanged
as text; marshalling byte content containing the bell byte 0x07 wraps
it as an opaque `Binary` wire value; and the inbound unwrapping
(`_handle_binary_arg`) applied to that opaque value returns the
original bytes unchanged — a round trip. -/
theorem c7_binary_round_trip :
    (∀ (env : Env) (b : Bool) (s : List Nat),
        s.all (fun c => decide (32 ≤ c) && decide (c ≤ 126)) = true →
        handle_return_value env (PyVal.vStr b s) = Except.ok (PyVal.vStr b s)) ∧
    (∀ (env : Env) (s : List Nat), 7 ∈ s →
        handle_return_value env (PyVal.vStr true s) = Except.ok (PyVal.vBinary s) ∧
        handle_binary_arg (PyVal.vBinary s) = PyVal.vStr true s) := by
  constructor
  · intro env b s hall
    have hcb : contains_binary env b s = false := by
      have h1 : s.any isBinChar = false := by
        simp only [List.any_eq_false]
        intro c hc
        have hb := List.all_eq_true.mp hall c hc
        simp only [Bool.and_eq_true, decide_eq_true_eq] at hb
        simp [isBinChar]
        omega
      have h2 : s.any isNonAsciiChar = false := by
        simp only [List.any_eq_false]
        intro c hc
        have hb := List.all_eq_true.mp hall c hc
        simp only [Bool.and_eq_true, decide_eq_true_eq] at hb
        simp [isNonAsciiChar]
        omega
      simp [contains_binary, h1, h2]
    simp [handle_return_value, handle_binary_result, hcb]
  · intro env s h7
    have hcb : contains_binary env true s = true := by
      have h1 : s.any isBinChar = true :=
        List.any_eq_true.mpr ⟨7, h7, by simp [isBinChar]⟩
      simp [contains_binary, h1]
    constructor
    · simp [handle_return_value, handle_binary_result, hcb]
    · rfl

/-- C7 witness: the round trip at `"hello"` (printable ASCII, returned
unchanged) and at the byte content `[0x68, 0x07]` (wrapped as `Binary`
and unwrapped back to the original bytes). -/
theorem c7_binary_round_trip_witness :
    handle_return_value envStd (PyVal.vStr true (strBytes "hello")) =
      Except.ok (PyVal.vStr true (strBytes "hello")) ∧
    (handle_return_value envStd (PyVal.vStr true [104, 7]) =
        Except.ok (PyVal.vBinary [104, 7]) ∧
      handle_binary_arg (PyVal.vBinary [104, 7]) = PyVal.vStr true [104, 7]) :=
  ⟨c7_binary_round_trip.1 envStd true (strBytes "hello") (by decide),
    c7_binary_round_trip.2 envStd [104, 7] (by decide)⟩

/-- C8: for a classified (non-fatal) condition whose own text converts
cleanly (no `UnicodeError`, no binary content), the envelope message is
the condition's text when non-empty and otherwise its kind name; the
message is used bare exactly when the exact kind is one of the generic
kinds (`AssertionError`, `RuntimeError`, `Exception`) or the condition
carries the `ROBOT_SUPPRESS_NAME` marker, and otherwise is formatted as
`"<Kind>: <text>"`; the stream state is untouched on this path. -/
theorem c8_error_message_selection (env : Env) (e : ExcInfo) (st : SysState)
    (hnf : e.isFatalType = false)
    (huni : e.unicodeFails = false)
    (hcb : contains_binary env false e.text = false) :
    (get_error_message env e st).1 =
      Except.ok (if e.text.isEmpty then PyVal.vStr true e.typeName
        else if e.isGenericType || e.robotSuppress then PyVal.vStr false e.text
        else PyVal.vStr false (e.typeName ++ strBytes ": " ++ e.text)) ∧
    (get_error_message env e st).2 = st := by
  have hmsg : get_message_from_exception env e = Except.ok (PyVal.vStr false e.text) := by
    simp [get_message_from_exception, huni, handle_binary_result, hcb]
  unfold get_error_message
  simp only [hnf, Bool.false_eq_true, if_false]
  rw [hmsg]
  cases he : e.text.isEmpty <;> cases hg : (e.isGenericType || e.robotSuppress) <;>
    simp [pyFalsy, he, hg, formatNameMsg]

/-- A non-generic `RuntimeError` subclass with a non-empty message and
no marker attributes, as the LDTP client typically raises. -/
def eLdtp : ExcInfo :=
  { typeName := strBytes "LdtpExecutionError", isRuntime := true, isFatalType := false,
    isGenericType := false, unicodeFails := false, text := strBytes "window not found",
    args := [], robotContinue := false, robotExit := false, robotSuppress := false,
    tb := [] }

/-- C8 witness: the non-generic concrete exception formats as
`"<Kind>: <text>"`. -/
theorem c8_error_message_selection_witness :
    (get_error_message envStd eLdtp ⟨true, true, [], []⟩).1 =
      Except.ok (PyVal.vStr false (strBytes "LdtpExecutionError: window not found")) :=
  ((c8_error_message_selection envStd eLdtp ⟨true, true, [], []⟩ rfl rfl
      (by decide)).1).trans rfl

/-- Every code point produced by the decimal digit loop is an ASCII
digit, provided the accumulator already contains only digits. -/
lemma natDecimalGo_mem (fuel : Nat) : ∀ (n : Nat) (acc : List Nat),
    (∀ c ∈ acc, 48 ≤ c ∧ c ≤ 57) →
    ∀ c ∈ natDecimalGo fuel n acc, 48 ≤ c ∧ c ≤ 57 := by
  induction fuel with
  | zero => intro n acc hacc; simpa [natDecimalGo] using hacc
  | succ f ih =>
    intro n acc hacc c hc
    unfold natDecimalGo at hc
    by_cases h : n < 10
    · simp [h] at hc
      rcases hc with hc | hc
      · omega
      · exact hacc c hc
    · simp [h] at hc
      refine ih (n / 10) ((n % 10 + 48) :: acc) ?_ c hc
      intro c2 hc2
      rcases List.mem_cons.mp hc2 with hc2 | hc2
      · have := Nat.mod_lt n (show 0 < 10 by omega)
        omega
      · exact hacc c2 hc2

/-- The decimal text of an integer consists of ASCII digits and at most
a leading minus sign. -/
lemma intDecimalBytes_mem (i : Int) :
    ∀ c ∈ intDecimalBytes i, c = 45 ∨ (48 ≤ c ∧ c ≤ 57) := by
  cases i with
  | ofNat n =>
    intro c hc
    exact Or.inr (natDecimalGo_mem (n + 1) n [] (by simp) c hc)
  | negSucc n =>
    intro c hc
    rcases List.mem_cons.mp hc with hc | hc
    · exact Or.inl hc
    · exact Or.inr (natDecimalGo_mem (n + 2) (n + 1) [] (by simp) c hc)

/-- Decimal integer text never triggers the binary-safety check. -/
lemma intDecimalBytes_nobin (env : Env) (i : Int) :
    contains_binary env false (intDecimalBytes i) = false := by
  have h1 : (intDecimalBytes i).any isBinChar = false := by
    simp only [List.any_eq_false]
    intro c hc
    rcases intDecimalBytes_mem i c hc with hc2 | hc2 <;>
      (simp [isBinChar]; omega)
  simp [contains_binary, h1]

/-- Lemma: `_str` on an integer key yields its decimal text unchanged. -/
lemma str_int (env : Env) (k : Int) :
    str_ env (PyVal.vInt k) true = Except.ok (PyVal.vStr false (intDecimalBytes k)) := by
  simp [str_, strConv, handle_binary_result, intDecimalBytes_nobin]

/-- The dict comprehension over an integer-keyed, integer-valued map
turns every key into its decimal text and keeps every value. -/
lemma hrvEntries_int (env : Env) (m : List (Int × Int)) :
    hrvEntries env (m.map fun p => (PyVal.vInt p.1, PyVal.vInt p.2)) =
      Except.ok (m.map fun p =>
        (PyVal.vStr false (intDecimalBytes p.1), PyVal.vInt p.2)) := by
  induction m with
  | nil => simp [hrvEntries]
  | cons p m ih =>
    simp [hrvEntries, str_int, handle_return_value, ih]
    rfl

/-- C9: marshalling a returned mapping coerces every key to text and
recursively marshals every value — for every integer-keyed map the wire
map carries the keys' decimal text; in particular integer key `1` comes
out as the text `"1"`, and the value marshalling recurses into nested
maps. -/
theorem c9_map_keys_text :
    (∀ (env : Env) (m : List (Int × Int)),
        handle_return_value env
            (PyVal.vMap (m.map fun p => (PyVal.vInt p.1, PyVal.vInt p.2))) =
          Except.ok (PyVal.vMap (m.map fun p =>
            (PyVal.vStr false (intDecimalBytes p.1), PyVal.vInt p.2)))) ∧
    handle_return_value envStd
        (PyVal.vMap [(PyVal.vInt 1, PyVal.vStr true (strBytes "a"))]) =
      Except.ok (PyVal.vMap
        [(PyVal.vStr false (strBytes "1"), PyVal.vStr true (strBytes "a"))]) ∧
    handle_return_value envStd
        (PyVal.vMap [(PyVal.vInt 1, PyVal.vMap [(PyVal.vInt 2, PyVal.vInt 3)])]) =
      Except.ok (PyVal.vMap [(PyVal.vStr false (strBytes "1"),
        PyVal.vMap [(PyVal.vStr false (strBytes "2"), PyVal.vInt 3)])]) := by
  refine ⟨?_, rfl, rfl⟩
  intro env m
  simp [handle_return_value, hrvEntries_int]
  rfl
